import Mathlib

/-!
Verification of the gecco scheduling, dispatch and remote-execution core
(src/gecco.py, src/gecco/modules/lexicon.py) against its design document.

The embedding is shallow: each Python routine the claims touch is translated
into an executable Lean definition over explicit state.  Python runtime
faults (NameError, AttributeError, TypeError, KeyError, UnboundLocalError)
are modelled with an error type, because several routines of this draft of
the code fault before reaching the behaviour the design document ascribes to
them.  Name resolution is made explicit where a fault hinges on it: a small
statement machine records, per statement, which plain names are read and
which local is assigned, and replays the Python scoping rule that a name
assigned anywhere in a function body is local to the whole body.
-/

deriving instance DecidableEq for Except

namespace Gecco

/-- Python runtime faults that the embedded routines can raise. -/
inductive PyErr where
  | nameErr (x : String)
  | attrErr (x : String)
  | typeErr (x : String)
  | keyErr (x : String)
  | unboundLocal (x : String)
  | valueErr (x : String)
  | exc (x : String)
deriving DecidableEq

/-- One straight-line statement of a Python function body: a label (the
source text), the local names it assigns, and the plain (non-attribute)
names it reads, in evaluation order. -/
structure PStmt where
  lbl : String
  writes : List String
  readsL : List String
deriving DecidableEq

/-- All names assigned anywhere in a body: by the Python scoping rule these
are local to the whole function body. -/
def assignedIn (prog : List PStmt) : List String :=
  prog.flatMap (fun s => s.writes)

/-- Resolution of one plain name: a function-local name read before its
first assignment raises UnboundLocalError; a name that is neither local nor
a module-level or builtin name raises NameError. -/
def resolveName (localNames bound globalNames : List String) (x : String) :
    Option PyErr :=
  if localNames.contains x then
    if bound.contains x then none else some (.unboundLocal x)
  else if globalNames.contains x then none
  else some (.nameErr x)

/-- First fault among the reads of one statement, in evaluation order. -/
def firstBad (localNames bound globalNames : List String) :
    List String → Option PyErr
  | [] => none
  | x :: rest =>
    match resolveName localNames bound globalNames x with
    | some e => some e
    | none => firstBad localNames bound globalNames rest

/-- Replay of a body: the labels of the statements that completed, and the
fault that stopped the replay, when one did. -/
def execFrom (localNames globalNames : List String) (bound : List String) :
    List PStmt → List String × Option PyErr
  | [] => ([], none)
  | s :: rest =>
    match firstBad localNames bound globalNames s.readsL with
    | some e => ([], some e)
    | none =>
      let step := execFrom localNames globalNames (s.writes ++ bound) rest
      (s.lbl :: step.1, step.2)

/-- Replay of a function body whose parameters are `params`, against the
module-level and builtin names `globalNames`. -/
def execP (globalNames params : List String) (prog : List PStmt) :
    List String × Option PyErr :=
  execFrom (assignedIn prog ++ params) globalNames params prog

/-- Module-level names of gecco.py: its imports (lines 12-22; note that
datetime is not among them) and its own top-level definitions, plus the
Python builtins the embedded bodies read.  There is no module-level host,
port, q, units or queue. -/
def geccoGlobalNames : List String :=
  ["OrderedDict", "Thread", "Queue", "Lock", "sys", "os", "socket",
   "socketserver", "yaml", "folia", "Tokenizer", "argparse",
   "UCTOSEARCHDIRS", "ProcessorThread", "Corrector", "LoadBalanceMaster",
   "LoadBalanceServer", "LineByLineClient", "LineByLineServerHandler",
   "ThreadedTCPServer", "Module",
   "str", "len", "set", "isinstance", "range", "print", "type", "iter",
   "next"]

/-- Attribute names a gecco `Module` instance carries: the class attributes
UNIT, CLIENT, SERVER (lines 322-324), the attributes set by __init__ and
verifysettings (lines 326-361: id, settings, local, log, and sources and
models when configured), and parent, set by Corrector.append (line 133).
No code path assigns an attribute named server or doc. -/
def moduleAttrs : List String :=
  ["UNIT", "CLIENT", "SERVER", "id", "settings", "local", "log",
   "sources", "models", "parent"]

/-! ### Corrector construction and work-item enumeration (claim C1)

Unit kinds, module descriptors and documents for the dispatch loop of
Corrector.run (gecco.py lines 184-199).  A document exposes, per unit kind,
the list of its substructures of that kind, as folia select does. -/

/-- A unit kind a module can declare as its UNIT (gecco.py line 322 and the
overrides in the module files). -/
inductive UK where
  | document
  | sentence
  | word
deriving DecidableEq

/-- A module as the dispatch loop sees it: its id and its declared UNIT. -/
structure GModule where
  mid : String
  unitKind : UK
deriving DecidableEq

/-- The substructures of a document, per kind. -/
structure FDoc where
  sentences : List String
  words : List String
deriving DecidableEq

/-- foliadoc.select(unit) (line 196): the substructures of the given kind.
The whole document is not a substructure of itself. -/
def FDoc.select (d : FDoc) (u : UK) : List String :=
  match u with
  | .document => []
  | .sentence => d.sentences
  | .word => d.words

/-- The data part of a work item: the whole document (line 191) or one
substructure (line 199). -/
inductive Datum where
  | wholeDoc
  | el (u : UK) (x : String)
deriving DecidableEq

/-- The enqueue section of Corrector.run, lines 184-199, as a function of
the unit-kind set it iterates (the code reads it from the name units):
first every module whose UNIT is the document kind is paired with the whole
document (lines 186-191), then for every other kind in the set, every
substructure of that kind is paired with every module declaring it
(lines 193-199). -/
def enqueueAll (unitsSet : List UK) (mods : List GModule) (d : FDoc) :
    List (GModule × Datum) :=
  (if unitsSet.contains UK.document then
    (mods.filter (fun m => m.unitKind == UK.document)).map
      (fun m => (m, Datum.wholeDoc))
  else [])
  ++ (unitsSet.filter (fun u => u != UK.document)).flatMap (fun u =>
      (d.select u).flatMap (fun x =>
        (mods.filter (fun m => m.unitKind == u)).map
          (fun m => (m, Datum.el u x))))

/-- Line 74 of gecco.py: self.units = set([m.server for m in self]).  A
Module instance has no attribute named server (see moduleAttrs; the
intended attribute, per the comments at lines 184-199, is UNIT), so the
comprehension raises AttributeError at its first element.  Over the empty
registry the comprehension is empty and the set is empty; and at line 74
the registry is always empty, because __init__ runs before any append
(line 130) can add a module. -/
def correctorInitUnits (ms : List GModule) : Except PyErr (List UK) :=
  match ms.find? (fun _ => !moduleAttrs.contains "server") with
  | some _ => .error (.attrErr "server")
  | none => .ok []

/-- A Python bound-method call obj.m(a1 ... an) passes the receiver plus
the n explicit arguments; with no default values it is well-formed exactly
when the declaration has n + 1 parameters. -/
def methodCallOk (declaredParams explicitArgs : Nat) : Bool :=
  declaredParams == explicitArgs + 1

/-- Corrector.verifysettings is declared with an empty parameter list
(gecco.py line 76: it omits self) yet is invoked as self.verifysettings()
from __init__ (line 61). -/
def correctorVerifysettingsParamCount : Nat := 0

/-- LoadBalanceMaster.__init__ declares three parameters (line 254: self,
availableservers, minpollinterval) yet line 72 constructs
LoadBalanceMaster(self.servers), passing two. -/
def loadBalanceMasterInitParamCount : Nat := 3

/-- A sample document with one sentence and two words. -/
def docTwoWords : FDoc := ⟨["s1"], ["w1", "w2"]⟩

/-- A sample word-level module, as LexiconModule declares UNIT = folia.Word
(lexicon.py line 21). -/
def gmLex : GModule := ⟨"lexicon", UK.word⟩

/-! ### Module settings, the local flag and endpoint selection (claims C4, C5)

The base Module class of gecco.py.  Only the parts of its settings that the
claims touch are carried: whether the key servers is present in the settings
dict and, when it is, its value (the candidate endpoint list).  The other
lines of verifysettings (334-361) fill sources, models, log and three folia
defaults, none of which feeds the fields used here. -/

/-- The slice of a module settings dict the claims depend on: serversKey is
some l exactly when the key servers is present, mapped to the endpoint
list l. -/
structure ModSettings where
  serversKey : Option (List (String × Nat))
deriving DecidableEq

/-- A gecco Module after verifysettings: its settings and the computed
local flag. -/
structure SrcModule where
  settings : ModSettings
  localFlag : Bool
deriving DecidableEq

/-- Line 333 of gecco.py: self.local = (servers in self.settings).  The
flag is the presence test of the key servers, so a module WITH endpoints
gets local = true. -/
def verifysettingsLocal (s : ModSettings) : Bool :=
  s.serversKey.isSome

/-- Module.__init__ (lines 326-329): store the settings and run
verifysettings, which computes the local flag. -/
def mkModule (s : ModSettings) : SrcModule :=
  ⟨s, verifysettingsLocal s⟩

/-- Module.findserver, lines 363-372.  The result carries the chosen
endpoint and the number of load-poll requests issued on the way (the
single-candidate branch, lines 367-369, returns directly and polls
nothing).  A local module raises (line 366); a module whose settings lack
the key servers raises KeyError at line 367; with two or more candidates
line 372 reads the name loadbalancemaster, which is neither the parameter
(named loadbalanceserver, line 363) nor a global, so it raises NameError
before any balancing. -/
def SrcModule.findserver (m : SrcModule) : Except PyErr ((String × Nat) × Nat) :=
  if m.localFlag then .error (.exc "Module is local")
  else
    match m.settings.serversKey with
    | none => .error (.keyErr "servers")
    | some [e] => .ok (e, 0)
    | some _ =>
      if geccoGlobalNames.contains "loadbalancemaster" then
        .error (.exc "load balancing unreachable")
      else .error (.nameErr "loadbalancemaster")

/-! ### The line-by-line client (claim C3)

LineByLineClient, gecco.py lines 268-296.  __init__ (271-273) creates a
socket and sets connected = False; it discards its host and port arguments,
storing neither. -/

/-- The client state: the only attribute the claims depend on.  The
attributes an instance actually carries are listed in clientAttrs. -/
structure LBLClient where
  connected : Bool
deriving DecidableEq

/-- Attribute names a LineByLineClient instance carries after __init__
(lines 271-273): socket and connected.  No code path assigns an attribute
named sock, which line 287 reads. -/
def clientAttrs : List String :=
  ["socket", "connected"]

/-- The body of connect (line 276): self.socket.connect((host, port)).
host and port are read as plain names; they are not parameters of connect
and not globals (__init__ never stored its own host and port arguments). -/
def connectProg : List PStmt :=
  [⟨"self.socket.connect((host, port))", [], ["host", "port"]⟩,
   ⟨"self.connected = True", [], []⟩]

/-- LineByLineClient.connect, lines 275-277, through the name machine. -/
def LBLClient.connect (_c : LBLClient) : Except PyErr LBLClient :=
  match (execP geccoGlobalNames ["self"] connectProg).2 with
  | some e => .error e
  | none => .ok ⟨true⟩

/-- Line 286 compares msg[-1], which for a bytes object is an int, with the
bytes literal of a newline; values of these distinct types are never equal
in Python 3, so the test msg[-1] != newline always holds and a newline is
appended unconditionally. -/
def lastByteNeNewline : Bool := true

/-- LineByLineClient.send, lines 283-287: lazy connect when not connected
(line 284, which raises, see connect), encode and append the terminator
(lines 285-286), then write through self.sock (line 287) — an attribute the
instance does not carry (see clientAttrs; the attribute is socket), an
AttributeError.  The value component is the payload that would be written. -/
def LBLClient.send (c : LBLClient) (msg : String) :
    Except PyErr (LBLClient × String) := do
  let c2 ← if c.connected then pure c else c.connect
  let payload := if lastByteNeNewline then msg ++ "\n" else msg
  if clientAttrs.contains "sock" then pure (c2, payload)
  else .error (.attrErr "sock")

/-- LineByLineClient.receive, lines 289-296.  Line 293 reads
socket.recv(1024): the plain name socket resolves to the imported socket
MODULE (not self.socket), and the socket module has no attribute recv, so
the first loop iteration raises AttributeError.  (Were that repaired, the
loop test at line 294 compares an int with a bytes literal and so never
ends the loop, and line 296 returns the buffer with the terminator NOT
stripped.) -/
def LBLClient.receive (_c : LBLClient) : Except PyErr String :=
  .error (.attrErr "recv")

/-- LineByLineClient.communicate, lines 279-281: send, then receive into
the local answer.  The body has no return statement, so even were send and
receive to succeed its value would be None, never the received payload. -/
def LBLClient.communicate (c : LBLClient) (msg : String) :
    Except PyErr Unit := do
  let sent ← c.send msg
  let _answer ← sent.1.receive
  pure ()

/-! ### The per-worker client cache (claim C9) -/

/-- The clients dict of one ProcessorThread (line 37), keyed by (server,
port). -/
abbrev ClientCache := List ((String × Nat) × LBLClient)

/-- Lines 47-48 of gecco.py: if (server, port) is a key of self.clients,
the cached client is reused unchanged; otherwise the code constructs
module.CLIENT(host, port) — but host is an undefined plain name (the
resolved variable at line 46 is named server, and there is no global
host), so the miss path raises NameError and no client is created or
cached.  The then-branch below is what would run were the name defined. -/
def clientFor (cache : ClientCache) (ep : String × Nat) :
    Except PyErr (ClientCache × LBLClient) :=
  match cache.lookup ep with
  | some c => .ok (cache, c)
  | none =>
    if geccoGlobalNames.contains "host" then
      .ok ((ep, ⟨false⟩) :: cache, ⟨false⟩)
    else .error (.nameErr "host")

/-- The remote branch of the worker loop, lines 46-49 up to obtaining the
client: resolve the endpoint through findserver, then take or create the
cached client for it. -/
def remoteDispatch (m : SrcModule) (cache : ClientCache) :
    Except PyErr (ClientCache × LBLClient) := do
  let r ← m.findserver
  clientFor cache r.1

/-! ### The server-side connection handler (claim C8)

LineByLineServerHandler.handle, gecco.py lines 303-315, through the name
machine.  The body assigns buffer only through the augmented assignment at
line 307, which makes buffer local to the whole body and reads it before
any assignment: the first statement that runs after cont_recv = True raises
UnboundLocalError, on every connection and whatever bytes the peer sends.
The remaining statements are transcribed to show that, past the receive
loop, the body reads ONE message, answers it once and returns — there is
no outer loop over further requests on the connection. -/

/-- The statements of handle in source order (lines 305-315).  Attribute
reads through self are not plain-name reads and are omitted; the condition
tests at lines 308 and 314 compare an int with a bytes literal (see
lastByteNeNewline). -/
def handleProg : List PStmt :=
  [⟨"cont_recv = True", ["cont_recv"], []⟩,
   ⟨"buffer += self.request.recv(1024)", ["buffer"], ["buffer"]⟩,
   ⟨"if buffer[-1] == newline", [], ["buffer"]⟩,
   ⟨"msg = str(buffer, utf-8)", ["msg"], ["str", "buffer"]⟩,
   ⟨"response = self.server.module.server_handler(msg)", ["response"],
    ["msg"]⟩,
   ⟨"if isinstance(response, str): response = response.encode(utf-8)",
    ["response"], ["isinstance", "str", "response"]⟩,
   ⟨"if response[-1] != newline: response += newline", ["response"],
    ["response"]⟩,
   ⟨"self.request.sendall(response)", [], ["response"]⟩]

/-- The replay of handle: which statements complete and the fault. -/
def handleRun : List String × Option PyErr :=
  execP geccoGlobalNames ["self"] handleProg

/-! ### The Corrector.run body after module init (claim C6)

Lines 175-214 of gecco.py in source order, through the name machine.  The
loop at lines 177-181 runs at least once (the threads setting defaults to 1,
line 109), so its body appears once; each remaining loop body likewise
appears once, which only matters for statements after the first fault.
queue is assigned only at line 184, AFTER the thread construction at line
178 reads it, and is therefore an unbound local there; units (lines 186,
193) is read as a plain name but run never assigns it (line 74 set
self.units, an attribute) and there is no global units. -/
def correctorRunProg : List PStmt :=
  [⟨"lock = Lock()", ["lock"], ["Lock"]⟩,
   ⟨"threads = []", ["threads"], []⟩,
   ⟨"for i in range(self.settings threads)", ["i"], ["range"]⟩,
   ⟨"thread = ProcessorThread(queue, lock, self.loadbalancemaster)",
    ["thread"], ["ProcessorThread", "queue", "lock", "parameters"]⟩,
   ⟨"thread.setDaemon(True)", [], ["thread"]⟩,
   ⟨"thread.start()", [], ["thread"]⟩,
   ⟨"threads.append(thread)", [], ["threads", "thread"]⟩,
   ⟨"queue = Queue()", ["queue"], ["Queue"]⟩,
   ⟨"if folia.Document in units", [], ["folia", "units"]⟩,
   ⟨"for module in self", ["module"], []⟩,
   ⟨"queue.put((module, foliadoc))", [], ["queue", "module", "foliadoc"]⟩,
   ⟨"for unit in units", ["unit"], ["units"]⟩,
   ⟨"for data in foliadoc.select(unit)", ["data"], ["foliadoc", "unit"]⟩,
   ⟨"queue.put((module, data))", [], ["queue", "module", "data"]⟩,
   ⟨"queue.join()", [], ["queue"]⟩,
   ⟨"for thread in threads", ["thread"], ["threads"]⟩,
   ⟨"thread.stop()", [], ["thread"]⟩,
   ⟨"for module in self (finish)", ["module"], []⟩,
   ⟨"module.finish(foliadoc)", [], ["module", "foliadoc"]⟩,
   ⟨"foliadoc.save()", [], ["foliadoc"]⟩]

/-- The replay of the run body, with its parameters self, foliadoc, id and
the parameters mapping bound (line 141). -/
def correctorRunReplay : List String × Option PyErr :=
  execP geccoGlobalNames ["self", "foliadoc", "id", "parameters"]
    correctorRunProg

/-! ### The worker loop (claim C2)

ProcessorThread.run, gecco.py lines 39-50. -/

/-- The statements of ProcessorThread.run in source order (lines 40-50).
The queue is read as the plain name q at lines 41, 42 and 50; the attribute
set by __init__ is self.q (line 31) and gecco.py has no global q, so the
first queue test raises NameError and the thread dies having taken no
item. -/
def processorRunProg : List PStmt :=
  [⟨"while not self.stop", [], []⟩,
   ⟨"if not q.empty()", [], ["q"]⟩,
   ⟨"module, data = q.get()", ["module", "data"], ["q"]⟩,
   ⟨"if module.local: module.run(data, self.lock)", [],
    ["module", "data"]⟩,
   ⟨"server, port = module.findserver(self.loadbalancemaster)",
    ["server", "port"], ["module"]⟩,
   ⟨"if (server, port) not in self.clients: CLIENT(host, port)", [],
    ["server", "port", "host"]⟩,
   ⟨"module.runclient(self.clients[(server, port)], data, self.lock)", [],
    ["module", "server", "port", "data"]⟩,
   ⟨"q.task_done()", [], ["q"]⟩]

/-- The replay of the worker body. -/
def processorRunReplay : List String × Option PyErr :=
  execP geccoGlobalNames ["self"] processorRunProg

/-! ### The document-edit primitives and the mutation lock (claim C7)

Lines 431-500 of gecco.py.  The comment at lines 433-434 states the locking
intent: locks ensure the document state is never corrupted by partial
edits.  Each primitive is replayed as a sequence of steps producing the
trace of lock events beside the outcome; a fault stops the sequence where
Python raises, so a release statement after the fault emits nothing. -/

/-- A lock event of one edit primitive. -/
inductive LockEv where
  | acq
  | rel
deriving DecidableEq

/-- One step of an edit primitive: logging, taking or releasing the lock, a
call into the external document adapter, or the resolution of a plain name
or of a self attribute (ok says whether it resolves; the flags below are
computed from the name tables). -/
inductive EditStep where
  | logStep
  | acquireStep
  | externalCall
  | readName (x : String) (ok : Bool)
  | readAttr (a : String) (ok : Bool)
  | releaseStep
deriving DecidableEq

/-- Replay of an edit primitive: the lock-event trace and the outcome. -/
def runEdit : List EditStep → List LockEv × Except PyErr Unit
  | [] => ([], .ok ())
  | s :: rest =>
    match s with
    | .acquireStep =>
      let step := runEdit rest
      (.acq :: step.1, step.2)
    | .releaseStep =>
      let step := runEdit rest
      (.rel :: step.1, step.2)
    | .readName x ok =>
      if ok then runEdit rest else ([], .error (.nameErr x))
    | .readAttr a ok =>
      if ok then runEdit rest else ([], .error (.attrErr a))
    | .logStep => runEdit rest
    | .externalCall => runEdit rest

/-- The local names of addwordsuggestions: its parameters (line 436) and
correction_id (line 441).  There is no local (nor global) named
suggestion, which line 445 reads. -/
def addwordsuggestionsLocals : List String :=
  ["self", "lock", "word", "suggestions", "confidence", "correction_id"]

/-- addwordsuggestions, lines 436-454: log (437), lock.acquire() (439),
generate the correction id (441, a document-adapter call), then the
word.correct call whose keyword arguments are evaluated left to right: the
first, suggestions=suggestion, reads the undefined name suggestion (line
445; the parameter is named suggestions) and raises NameError inside the
critical section; datetime.datetime.now() at line 451 would read the
unimported name datetime.  lock.release() (line 454) stands after the call,
with no try/finally around the body. -/
def addwordsuggestionsSteps : List EditStep :=
  [.logStep,
   .acquireStep,
   .externalCall,
   .readName "suggestion"
     (addwordsuggestionsLocals.contains "suggestion" ||
      geccoGlobalNames.contains "suggestion"),
   .readName "datetime" (geccoGlobalNames.contains "datetime"),
   .externalCall,
   .releaseStep]

/-- adderrordetection, lines 458-473: log (459), lock.acquire() (461), then
the folia.ErrorDetection constructor whose first argument reads self.doc
(line 465) — an attribute Module never assigns (see moduleAttrs) — raising
AttributeError inside the critical section; line 470 would read the
unimported datetime; lock.release() at line 473 stands after. -/
def adderrordetectionSteps : List EditStep :=
  [.logStep,
   .acquireStep,
   .readAttr "doc" (moduleAttrs.contains "doc"),
   .readName "datetime" (geccoGlobalNames.contains "datetime"),
   .externalCall,
   .releaseStep]

/-- splitcorrection, lines 475-485: lock.acquire() (476), word.sentence()
(477, adapter call), then folia.Word(self.doc, ...) at line 478 reads
self.doc — unassigned — inside the critical section; line 480 would read
datetime; lock.release() at line 485 stands after. -/
def splitcorrectionSteps : List EditStep :=
  [.acquireStep,
   .externalCall,
   .readAttr "doc" (moduleAttrs.contains "doc"),
   .readName "datetime" (geccoGlobalNames.contains "datetime"),
   .externalCall,
   .releaseStep]

/-- mergecorrection, lines 487-500: lock.acquire() (488), the sentence of
the first original word (489-491, adapter calls), then folia.Word(self.doc,
...) at line 492 reads self.doc inside the critical section; line 494 would
read datetime; lock.release() at line 500 stands after. -/
def mergecorrectionSteps : List EditStep :=
  [.acquireStep,
   .externalCall,
   .readAttr "doc" (moduleAttrs.contains "doc"),
   .readName "datetime" (geccoGlobalNames.contains "datetime"),
   .externalCall,
   .releaseStep]

/-- The outcome of one addwordsuggestions call, as the lexicon module
invokes it (lexicon.py line 132). -/
def addwordsuggestionsResult : Except PyErr Unit :=
  (runEdit addwordsuggestionsSteps).2

/-! ### The lexicon module (claims C10 and C2)

src/gecco/modules/lexicon.py.  The module state carries the base module
descriptor, the settings verifysettings leaves behind (lines 23-54; the
numeric defaults are 5, 15, 2, 5, 1000 and the affix lists default to
empty), the lexicon that load fills (lines 56-82, insertion-ordered), and
the findclosest cache (line 59; empty at load). -/

/-- The lexicon settings findclosest reads, after verifysettings. -/
structure LexSettings where
  minlength : Nat
  maxlength : Nat
  maxdistance : Nat
  maxnrclosest : Nat
  cachesize : Nat
  suffixes : List String
  prefixes : List String
deriving DecidableEq

/-- What findclosest can return: the Python value False (no suggestions) or
a list of (candidate, distance) pairs. -/
inductive FindResult where
  | fls
  | results (rs : List (String × Nat))
deriving DecidableEq

/-- A loaded LexiconModule. -/
structure LexiconModule where
  base : SrcModule
  lexSettings : LexSettings
  lexicon : List (String × Nat)
  cache : List (String × FindResult)
deriving DecidableEq

/-- The edit a successful suggestion call would apply to the document. -/
inductive LexEdit where
  | addsuggestions (word : String) (suggs : List String)
deriving DecidableEq

/-- Levenshtein distance over character lists, standing in for
pynlpl.statistics.levenshtein (an external dependency): the code only
tests distance against maxdistance, a comparison on which any early-cutoff
variant agrees with the plain distance. -/
def lev : List Char → List Char → Nat
  | [], ys => ys.length
  | x :: xs, [] => (x :: xs).length
  | x :: xs, y :: ys =>
    if x = y then lev xs ys
    else 1 + min (lev xs (y :: ys)) (min (lev (x :: xs) ys) (lev xs ys))
termination_by xs ys => xs.length + ys.length
decreasing_by
  all_goals simp [List.length_cons]
  all_goals omega

/-- The candidate loop of findclosest, lines 110-116, over the lexicon
keys in insertion order.  Iterating the dict yields its KEYS, so the tuple
unpacking key, freq at line 111 unpacks the key string: it raises
ValueError unless the key has exactly two characters, in which case key and
freq are bound to the two characters and levenshtein compares the word with
the one-character key; when the distance is within maxdistance, line 114
appends through self.results — an attribute that does not exist (the local
is named results) — an AttributeError.  When the loop finishes without the
fault, line 116 subscripts the result of list.sort, which is None: a
TypeError.  Every path of the loop therefore raises, so the cache insertion
at lines 117-118 and the return at line 119 are unreachable and the cache
never grows. -/
def scanKeys (word : String) (maxdistance : Nat) : List String → PyErr
  | [] => .typeErr "NoneType is not subscriptable"
  | k :: rest =>
    match k.toList with
    | [c1, _c2] =>
      if lev word.toList [c1] ≤ maxdistance then .attrErr "results"
      else scanKeys word maxdistance rest
    | _ => .valueErr "too many values to unpack"

/-- LexiconModule.findclosest, lines 85-119, in source order: the cache
test (87-88: taken only when the cache is non-empty AND holds the word),
the length window (89-91), the lexicon test (92-94), the two affix loops
(99-106: return False at the first affix whose stripped form is in the
lexicon; note line 104 tests endswith for the prefixes too, as the source
does), and otherwise the candidate loop, which always raises (see
scanKeys).  The state is unchanged on every path, since the only cache
insertion (line 118) sits past the fault. -/
def findclosest (m : LexiconModule) (word : String) : Except PyErr FindResult :=
  let l := word.length
  if !m.cache.isEmpty && (m.cache.lookup word).isSome then
    .ok ((m.cache.lookup word).getD .fls)
  else if l < m.lexSettings.minlength ∨ m.lexSettings.maxlength < l then
    .ok .fls
  else if (m.lexicon.lookup word).isSome then
    .ok .fls
  else if m.lexSettings.suffixes.any (fun sfx =>
      word.endsWith sfx &&
      (m.lexicon.lookup (word.dropRight sfx.length)).isSome) then
    .ok .fls
  else if m.lexSettings.prefixes.any (fun pfx =>
      word.endsWith pfx &&
      (m.lexicon.lookup (word.drop pfx.length)).isSome) then
    .ok .fls
  else
    .error (scanKeys word m.lexSettings.maxdistance (m.lexicon.map Prod.fst))

/-- LexiconModule.run, lexicon.py lines 127-132: find the suggestions for
the word text and, only when the result is truthy (not False and not the
empty list), apply them through addwordsuggestions — whose call raises, see
addwordsuggestionsResult.  The value lists the edits applied to the
document. -/
def LexiconModule.run (m : LexiconModule) (word : String) :
    Except PyErr (List LexEdit) :=
  match findclosest m word with
  | .error e => .error e
  | .ok .fls => .ok []
  | .ok (.results rs) =>
    if rs.isEmpty then .ok []
    else
      match addwordsuggestionsResult with
      | .error e => .error e
      | .ok _ => .ok [LexEdit.addsuggestions word (rs.map Prod.fst)]

/-- LexiconModule.runclient, lexicon.py lines 134-139: one round trip
through client.communicate (which raises, see LBLClient.communicate),
then json.loads of its value — which would be None, a TypeError — then the
same truthiness test as run. -/
def LexiconModule.runclient (_m : LexiconModule) (c : LBLClient)
    (word : String) : Except PyErr (List LexEdit) := do
  let _ ← c.communicate word
  .error (.typeErr "the JSON document must be str, not NoneType")

/-- One worker iteration on one taken item, gecco.py lines 43-49: a module
whose local flag is set runs in process (line 44); otherwise the endpoint
is resolved, the cached client taken or created, and runclient invoked
(lines 46-49).  The body of ProcessorThread.run has no try/except, so any
fault of these calls propagates out of the loop. -/
def processItem (m : LexiconModule) (word : String) (cache : ClientCache) :
    Except PyErr (List LexEdit × ClientCache) :=
  if m.base.localFlag then
    match m.run word with
    | .error e => .error e
    | .ok es => .ok (es, cache)
  else
    match remoteDispatch m.base cache with
    | .error e => .error e
    | .ok (cache2, c) =>
      match m.runclient c word with
      | .error e => .error e
      | .ok es => .ok (es, cache2)

/-- The drain of one worker over the items it takes, in order, as the loop
of ProcessorThread.run processes them (with the queue read as the thread
attribute self.q; the source in fact reads the bare name q, a NameError
recorded by processorRunReplay).  Because the body has no exception
handler, the first faulting item ends the loop: its task_done is never
called and every later item is left unprocessed.  The value collects the
edit lists of the completed items beside the fault that stopped the
worker. -/
def workerDrain : ClientCache → List (LexiconModule × String) →
    List (List LexEdit) × Option PyErr
  | _, [] => ([], none)
  | cache, (m, w) :: rest =>
    match processItem m w cache with
    | .ok (es, cache2) =>
      let step := workerDrain cache2 rest
      (es :: step.1, step.2)
    | .error e => ([], some e)

/-- The settings verifysettings leaves when the configuration supplies
none of the numeric values (lexicon.py lines 35-54). -/
def defaultLexSettings : LexSettings :=
  ⟨5, 15, 2, 5, 1000, [], []⟩

/-- A lexicon module whose settings carry one endpoint: by line 333 of
gecco.py its local flag is set, so the worker runs it in process. -/
def lexLocal : LexiconModule :=
  ⟨mkModule ⟨some [("host1", 1234)]⟩, defaultLexSettings, [], []⟩

/-- A freshly loaded lexicon module holding the word hello. -/
def lexHello : LexiconModule :=
  ⟨mkModule ⟨none⟩, defaultLexSettings, [("hello", 12000)], []⟩

/-! ### Theorems -/

/-- With an empty unit-kind set the dispatch loop enqueues nothing,
whatever the registry and the document. -/
theorem enqueueAll_nil_units (ms : List GModule) (d : FDoc) :
    enqueueAll [] ms d = [] := rfl

/-- Claim C1: the design says Corrector.run enqueues exactly one work item
per (module, unit) pair whose kinds match, with document-level modules
receiving the whole document once.  The code cannot do this:
Corrector.__init__ calls self.verifysettings() although the declaration at
line 76 takes no parameter (first conjunct), constructs LoadBalanceMaster
with one argument missing (second), and computes the unit-kind set at line
74 from m.server — an attribute no module has (third and fourth) — over a
registry that is necessarily still empty (fifth), so the enqueue loop,
given the set that line computes, enqueues nothing (sixth); only with the
intended set of declared UNIT kinds does it enqueue each matching pair
exactly once (seventh, on a one-module registry over a two-word
document). -/
theorem claimC1_dispatch_never_happens :
    methodCallOk correctorVerifysettingsParamCount 0 = false
    ∧ methodCallOk loadBalanceMasterInitParamCount 1 = false
    ∧ moduleAttrs.contains "server" = false
    ∧ correctorInitUnits [gmLex] = .error (.attrErr "server")
    ∧ correctorInitUnits [] = .ok []
    ∧ enqueueAll [] [gmLex] docTwoWords = []
    ∧ enqueueAll [UK.word] [gmLex] docTwoWords =
        [(gmLex, Datum.el UK.word "w1"), (gmLex, Datum.el UK.word "w2")] := by
  decide

/-- Claim C2: the design says a worker catches and logs a faulting item and
goes on with the rest.  The worker body has no handler at all: the loop
itself dies at once on the undefined name q (first conjunct); and the
drain, read over the intended queue attribute, ends at the first faulting
item — here a lexicon item whose candidate loop raises — leaving a second,
processable item (third conjunct) untaken (fourth conjunct). -/
theorem claimC2_worker_dies_on_first_fault :
    processorRunReplay = (["while not self.stop"], some (.nameErr "q"))
    ∧ processItem lexLocal "abcdef" [] =
        .error (.typeErr "NoneType is not subscriptable")
    ∧ processItem lexLocal "hi" [] = .ok ([], [])
    ∧ workerDrain [] [(lexLocal, "abcdef"), (lexLocal, "hi")] =
        ([], some (.typeErr "NoneType is not subscriptable")) := by
  decide

/-- Claim C3: the design says communicate(msg) lazily connects, sends,
reads to the terminator and returns the payload with the newline stripped.
On a fresh client the lazy connect itself raises NameError, because
__init__ discarded host and port and connect reads them as plain names;
and even on a client marked connected, send raises AttributeError on
self.sock.  communicate never returns a payload at any input (and its body
has no return statement, so its value would be None regardless). -/
theorem claimC3_communicate_raises :
    LBLClient.communicate ⟨false⟩ "hello" = .error (.nameErr "host")
    ∧ LBLClient.communicate ⟨true⟩ "hello" = .error (.attrErr "sock") := by
  decide

/-- Claim C4: the design invariant says the local flag holds exactly when
the endpoint list is empty.  Line 333 computes the presence test of the
key servers, so a module constructed WITH a one-endpoint list comes out
with local = true: the stated equivalence fails on that module. -/
theorem claimC4_local_flag_inverted :
    (mkModule ⟨some [("host1", 1234)]⟩).localFlag = true
    ∧ (mkModule ⟨some [("host1", 1234)]⟩).settings.serversKey =
        some [("host1", 1234)]
    ∧ ¬ ((mkModule ⟨some [("host1", 1234)]⟩).localFlag = true ↔
        (mkModule ⟨some [("host1", 1234)]⟩).settings.serversKey.getD [] = []) := by
  decide

/-- Claim C5: the design says findserver returns a sole candidate endpoint
without polling.  Because of the inverted local flag a module with one
endpoint raises Exception at line 366 instead (first conjunct), and the
serverless modules that do reach the branch raise KeyError (second); the
single-candidate path itself does return the endpoint with zero polls, but
only from a state the constructor never produces (third). -/
theorem claimC5_single_endpoint_raises :
    (mkModule ⟨some [("host1", 1234)]⟩).findserver =
        .error (.exc "Module is local")
    ∧ (mkModule ⟨none⟩).findserver = .error (.keyErr "servers")
    ∧ SrcModule.findserver ⟨⟨some [("host1", 1234)]⟩, false⟩ =
        .ok (("host1", 1234), 0) := by
  decide

/-- Claim C6: the design says run blocks at the drain barrier (queue
closed and empty) before any finish or save.  The replay of the run body
faults at the thread construction, which reads the local queue six lines
before its assignment: the enqueue statements, the queue.join barrier, the
finish loop and the save are never reached. -/
theorem claimC6_run_faults_before_barrier :
    correctorRunReplay =
      (["lock = Lock()", "threads = []",
        "for i in range(self.settings threads)"],
       some (.unboundLocal "queue"))
    ∧ "queue.join()" ∉ correctorRunReplay.1
    ∧ "module.finish(foliadoc)" ∉ correctorRunReplay.1
    ∧ "foliadoc.save()" ∉ correctorRunReplay.1 := by
  decide

/-- Claim C7: the design says every structural edit takes the mutation
lock just around the document write and releases it right after.  Each of
the four primitives does acquire the lock first, but then raises inside
the critical section — addwordsuggestions on the undefined name suggestion,
the other three on the unassigned attribute self.doc — and, with no
try/finally, none of the four traces ever carries a release. -/
theorem claimC7_lock_never_released :
    runEdit addwordsuggestionsSteps =
        ([LockEv.acq], .error (.nameErr "suggestion"))
    ∧ LockEv.rel ∉ (runEdit addwordsuggestionsSteps).1
    ∧ runEdit adderrordetectionSteps = ([LockEv.acq], .error (.attrErr "doc"))
    ∧ LockEv.rel ∉ (runEdit adderrordetectionSteps).1
    ∧ runEdit splitcorrectionSteps = ([LockEv.acq], .error (.attrErr "doc"))
    ∧ LockEv.rel ∉ (runEdit splitcorrectionSteps).1
    ∧ runEdit mergecorrectionSteps = ([LockEv.acq], .error (.attrErr "doc"))
    ∧ LockEv.rel ∉ (runEdit mergecorrectionSteps).1 := by
  decide

/-- Claim C8 counterexample: the claim says the handler answers a request
and keeps reading further requests on the connection; on a connection
carrying the single newline-terminated request the identity handler would
echo, no send ever executes — the replay faults at the first read. -/
theorem claimC8_counterexample :
    "self.request.sendall(response)" ∉ handleRun.1
    ∧ handleRun.2 = some (.unboundLocal "buffer") := by
  decide

/-- Claim C8 as amended: on every connection, whatever the peer sends,
handle raises UnboundLocalError at its first receive statement — the local
buffer is read by the augmented assignment before any binding — so the
handler answers zero requests; the body is in any case structured to
answer at most one request and return. -/
theorem claimC8_handle_answers_nothing :
    handleRun = (["cont_recv = True"], some (.unboundLocal "buffer")) := by
  decide

/-- Claim C9: the design says a worker reuses its cached client per
resolved endpoint and otherwise builds one for that endpoint and caches
it.  The hit path does reuse the cached instance unchanged (third
conjunct), but the miss path raises NameError on the undefined name host
(second), and the only modules that reach the remote branch at all — those
whose settings lack the key servers, since the local flag is inverted —
already fault inside findserver (first). -/
theorem claimC9_client_cache_defect :
    remoteDispatch (mkModule ⟨none⟩) [] = .error (.keyErr "servers")
    ∧ clientFor [] ("host1", 1234) = .error (.nameErr "host")
    ∧ clientFor [(("host1", 1234), ⟨false⟩)] ("host1", 1234) =
        .ok ([(("host1", 1234), ⟨false⟩)], ⟨false⟩) :=
  ⟨by decide, by decide, by decide⟩

/-- Claim C10: on a freshly loaded lexicon module (empty cache — the only
cache the code can produce, since the candidate loop faults before the
cache insertion), a word that is in the lexicon, or shorter than minlength,
or longer than maxlength, makes findclosest return False, and run
therefore applies no edit to the document. -/
theorem claimC10_no_suggestion_no_edit (base : SrcModule) (ls : LexSettings)
    (lex : List (String × Nat)) (word : String)
    (h : (lex.lookup word).isSome = true ∨ word.length < ls.minlength ∨
      ls.maxlength < word.length) :
    findclosest ⟨base, ls, lex, []⟩ word = .ok .fls
    ∧ LexiconModule.run ⟨base, ls, lex, []⟩ word = .ok [] := by
  have hfind : findclosest ⟨base, ls, lex, []⟩ word = .ok .fls := by
    unfold findclosest
    rcases h with h | h
    · by_cases hb : word.length < ls.minlength ∨ ls.maxlength < word.length
      · simp [hb]
      · simp [hb, h]
    · simp [Or.inl h, h]
  refine ⟨hfind, ?_⟩
  unfold LexiconModule.run
  rw [hfind]

/-- Claim C10 witness: the lexicon word hello, on a fresh module holding
it, yields False and no edit. -/
theorem claimC10_no_suggestion_no_edit_w :
    (([("hello", 12000)] : List (String × Nat)).lookup "hello").isSome = true
    ∧ findclosest lexHello "hello" = .ok .fls
    ∧ LexiconModule.run lexHello "hello" = .ok [] := by
  refine ⟨by decide, ?_, ?_⟩
  · exact (claimC10_no_suggestion_no_edit (mkModule ⟨none⟩) defaultLexSettings
      [("hello", 12000)] "hello" (Or.inl (by decide))).1
  · exact (claimC10_no_suggestion_no_edit (mkModule ⟨none⟩) defaultLexSettings
      [("hello", 12000)] "hello" (Or.inl (by decide))).2

end Gecco
